import Mathlib

/-!
Verification of the multimodal retrieval core of the Offline Multi-Modal
RAG System against its specification.

The repository ships the React frontend (embedded below from
`frontend/src/components/...`) while the backend retrieval core
(FAISS vector store, fragment registry, query planner, citation
assembler) is described by the specification and the backend README but
its Python sources are not part of the source tree.  Those components
are therefore modelled from the specification; every such definition
carries a doc comment starting with `Modelled from the spec:`.
Similarity scores are modelled as rationals; vectors are assumed
internally normalized, so cosine similarity is the dot product.
-/

/-- Modelled from the spec: content category, §3 "modality: one of
\x7btext, image, audio\x7d" (backend tagged variant not in the source tree).
The third constructor is the audio modality. -/
inductive Modality
  | text
  | image
  | audioMod
deriving DecidableEq, Repr

/-- Modelled from the spec: §7 error taxonomy entry `DimensionMismatchError`
raised by the missing backend vector store. -/
inductive IndexError
  | dimensionMismatch
deriving DecidableEq, Repr

/-- Modelled from the spec: §4.3 per-modality vector index (the backend
`faiss_store.py` is not in the source tree) — a configured dimension and
entries keyed by fragment identifier. -/
structure VIndex where
  dim : ℕ
  entries : List (ℕ × List ℚ)
deriving DecidableEq, Repr

/-- Fragment identifiers currently stored in the index. -/
def VIndex.keys (idx : VIndex) : List ℕ :=
  idx.entries.map Prod.fst

/-- Number of stored vectors. -/
def VIndex.size (idx : VIndex) : ℕ :=
  idx.entries.length

/-- Stored vector for a fragment identifier, if present. -/
def VIndex.lookup (idx : VIndex) (fid : ℕ) : Option (List ℚ) :=
  match idx.entries.find? (fun e => e.1 == fid) with
  | none => none
  | some e => some e.2

/-- Dot product of two rational vectors (missing entries count as zero). -/
def dotQ : List ℚ → List ℚ → ℚ
  | [], _ => 0
  | _, [] => 0
  | a :: as, b :: bs => a * b + dotQ as bs

/-- Modelled from the spec: §4.3 "cosine similarity, normalized internally";
for internally normalized vectors the cosine is the dot product. -/
def cosineSim (u v : List ℚ) : ℚ :=
  dotQ u v

/-- Ranking order on scored candidates: higher score first, ties by
ascending fragment identifier (spec §4.3 search contract). -/
def rankRel (a b : ℕ × ℚ) : Prop :=
  b.2 < a.2 ∨ (a.2 = b.2 ∧ a.1 ≤ b.1)

instance : DecidableRel rankRel := fun a b => by
  unfold rankRel
  infer_instance

instance : IsTotal (ℕ × ℚ) rankRel :=
  ⟨fun a b => by
    unfold rankRel
    rcases lt_trichotomy a.2 b.2 with h | h | h
    · exact Or.inr (Or.inl h)
    · rcases Nat.le_total a.1 b.1 with h1 | h1
      · exact Or.inl (Or.inr ⟨h, h1⟩)
      · exact Or.inr (Or.inr ⟨h.symm, h1⟩)
    · exact Or.inl (Or.inl h)⟩

instance : IsTrans (ℕ × ℚ) rankRel :=
  ⟨fun a b c hab hbc => by
    unfold rankRel at *
    rcases hab with h1 | ⟨h1, h1'⟩
    · rcases hbc with h2 | ⟨h2, _⟩
      · exact Or.inl (lt_trans h2 h1)
      · exact Or.inl (h2 ▸ h1)
    · rcases hbc with h2 | ⟨h2, h2'⟩
      · exact Or.inl (h1 ▸ h2)
      · exact Or.inr ⟨h1.trans h2, h1'.trans h2'⟩⟩

/-- Modelled from the spec: §4.3 `search(query_vector, k)` of the missing
backend vector store — brute-force cosine scan, ranked by score descending
with ties broken by ascending fragment id, truncated to `k`; dimension
mismatch of the query is an error. -/
def VIndex.search (idx : VIndex) (q : List ℚ) (k : ℕ) :
    Except IndexError (List (ℕ × ℚ)) :=
  if q.length = idx.dim then
    .ok ((List.insertionSort rankRel
      (idx.entries.map (fun e => (e.1, cosineSim q e.2)))).take k)
  else
    .error .dimensionMismatch

/-- Replace the vector stored under `fid`, or append a new entry. -/
def upsertEntry : List (ℕ × List ℚ) → ℕ → List ℚ → List (ℕ × List ℚ)
  | [], fid, v => [(fid, v)]
  | e :: rest, fid, v =>
      if e.1 = fid then (fid, v) :: rest else e :: upsertEntry rest fid v

/-- Modelled from the spec: §4.3 `insert(fragment_id, vector)` of the missing
backend vector store — rejects a vector of the wrong dimension, otherwise
upserts (re-insert replaces). -/
def VIndex.insert (idx : VIndex) (fid : ℕ) (v : List ℚ) :
    Except IndexError VIndex :=
  if v.length = idx.dim then
    .ok ⟨idx.dim, upsertEntry idx.entries fid v⟩
  else
    .error .dimensionMismatch

/-- Modelled from the spec: §4.3 `remove(fragment_id)` of the missing backend
vector store — no-op when absent. -/
def VIndex.remove (idx : VIndex) (fid : ℕ) : VIndex :=
  ⟨idx.dim, idx.entries.filter (fun e => e.1 != fid)⟩

/-- Modelled from the spec: §3 Fragment — the atomic retrievable unit of the
missing backend registry schema. -/
structure Fragment where
  fragment_id : ℕ
  document_id : ℕ
  modality : Modality
  embedding : List ℚ
  locator : Option ℕ
  excerpt : String
deriving DecidableEq, Repr

/-- Modelled from the spec: the core's owned state — the fragment registry
plus one vector index per modality (§2, §9), absent from the source tree. -/
structure SystemState where
  registry : List Fragment
  textIdx : VIndex
  imageIdx : VIndex
  audioIdx : VIndex
deriving DecidableEq, Repr

/-- The per-modality index of a state. -/
def SystemState.indexOf (st : SystemState) : Modality → VIndex
  | .text => st.textIdx
  | .image => st.imageIdx
  | .audioMod => st.audioIdx

/-- Modelled from the spec: §4.2 registry `get(fragment_id)` of the missing
backend. -/
def SystemState.getFragment (st : SystemState) (fid : ℕ) : Option Fragment :=
  st.registry.find? (fun f => f.fragment_id == fid)

/-- Fragment identifiers owned by a document, read from the registry. -/
def SystemState.docFragmentIds (st : SystemState) (docId : ℕ) : List ℕ :=
  (st.registry.filter (fun f => f.document_id == docId)).map
    (fun f => f.fragment_id)

/-- Remove every listed fragment identifier from an index, one at a time
(idempotent cascade of §4.3 `remove`). -/
def removeAll (idx : VIndex) (fids : List ℕ) : VIndex :=
  fids.foldl VIndex.remove idx

/-- Modelled from the spec: §3/§6 `delete_document` — cascade that removes a
document's fragments from the registry and from every vector index. -/
def SystemState.deleteDocument (st : SystemState) (docId : ℕ) : SystemState :=
  let fids := st.docFragmentIds docId
  { registry := st.registry.filter (fun f => f.document_id != docId)
    textIdx := removeAll st.textIdx fids
    imageIdx := removeAll st.imageIdx fids
    audioIdx := removeAll st.audioIdx fids }

/-- Modelled from the spec: §7 `CascadeFailure` — carries the fragment ids
not fully removed so the caller can retry just those. -/
structure CascadeFailure where
  failedIds : List ℕ
deriving DecidableEq, Repr

/-- Modelled from the spec: §3 atomic document-delete cascade of the missing
backend — `removeFails` says which per-fragment index removals would fail;
on any failure the caller-visible state is unchanged and a `CascadeFailure`
lists the ids, otherwise all traces of the document are gone. -/
def SystemState.tryDeleteDocument (st : SystemState) (docId : ℕ)
    (removeFails : ℕ → Bool) : SystemState × Option CascadeFailure :=
  if ((st.docFragmentIds docId).filter removeFails).isEmpty then
    (st.deleteDocument docId, none)
  else
    (st, some ⟨(st.docFragmentIds docId).filter removeFails⟩)

/-- Modelled from the spec: §4.4 `options` of the missing backend query
planner — `top_k` defaults to 5, `modalities` defaults to all three,
`document_filter` defaults to absent. -/
structure QueryOptions where
  top_k : ℕ := 5
  modalities : List Modality := [.text, .image, .audioMod]
  document_filter : Option (List ℕ) := none
deriving DecidableEq, Repr

/-- The default query options (every field at its spec default). -/
def defaultOptions : QueryOptions := {}

/-- Modelled from the spec: §4.4 Candidate — a ranked fragment reference
produced by the missing backend query planner. -/
structure Candidate where
  fragment_id : ℕ
  document_id : ℕ
  modality : Modality
  similarity_score : ℚ
  excerpt : String
  locator : Option ℕ
deriving DecidableEq, Repr

/-- Fusion order on candidates: similarity score descending (spec §4.4
step 3, pure score ordering). -/
def scoreRel (a b : Candidate) : Prop :=
  b.similarity_score ≤ a.similarity_score

instance : DecidableRel scoreRel := fun a b => by
  unfold scoreRel
  infer_instance

instance : IsTotal Candidate scoreRel :=
  ⟨fun a b => le_total b.similarity_score a.similarity_score⟩

instance : IsTrans Candidate scoreRel :=
  ⟨fun _ _ _ hab hbc => le_trans hbc hab⟩

/-- Modelled from the spec: §4.4 step 2 plus §5/§7 — candidates of one
requested modality: a modality without a usable embedding contributes
nothing (excluded from fusion, not an error), a dimension-mismatch failure
likewise, and index hits whose fragment is gone from the registry are
filtered out by the registry existence check on return. -/
def SystemState.modalityCandidates (st : SystemState)
    (embeds : Modality → Option (List ℚ)) (m : Modality) (k : ℕ) :
    List Candidate :=
  match embeds m with
  | none => []
  | some q =>
    match (st.indexOf m).search q k with
    | .error _ => []
    | .ok pairs =>
      pairs.filterMap (fun p =>
        match st.getFragment p.1 with
        | none => none
        | some f => some ⟨p.1, f.document_id, m, p.2, f.excerpt, f.locator⟩)

/-- Modelled from the spec: §4.4 step 3 — fuse the per-modality result lists
into one list ranked purely by similarity score descending. -/
def fusedCandidates (st : SystemState)
    (embeds : Modality → Option (List ℚ)) (opts : QueryOptions) :
    List Candidate :=
  List.insertionSort scoreRel
    ((opts.modalities.map
      (fun m => st.modalityCandidates embeds m opts.top_k)).flatten)

/-- Modelled from the spec: §4.4 step 4 — the optional document filter,
applied to the already-fused ranking. -/
def applyDocFilter (flt : Option (List ℕ)) (cs : List Candidate) :
    List Candidate :=
  match flt with
  | none => cs
  | some allowed => cs.filter (fun c => allowed.contains c.document_id)

/-- Modelled from the spec: §4.4 `plan_query` of the missing backend query
planner — embed per modality, search, fuse by score, post-filter by
document, truncate to `top_k`. -/
def SystemState.planQuery (st : SystemState)
    (embeds : Modality → Option (List ℚ)) (opts : QueryOptions) :
    List Candidate :=
  (applyDocFilter opts.document_filter (fusedCandidates st embeds opts)).take
    opts.top_k

/-- Modelled from the spec: §3 Citation — ephemeral, query-scoped, derived
from a ranked fragment by the missing backend citation assembler. -/
structure Citation where
  citation_number : ℕ
  fragment_id : ℕ
  similarity_score : ℚ
  modality : Modality
  excerpt : String
  locator : Option ℕ
deriving DecidableEq, Repr

/-- Drop candidates whose fragment identifier was already seen (default
dedup of §4.5: nothing beyond identical `fragment_id`). -/
def dedupAux : List Candidate → List ℕ → List Candidate
  | [], _ => []
  | c :: rest, seen =>
      if seen.contains c.fragment_id then dedupAux rest seen
      else c :: dedupAux rest (c.fragment_id :: seen)

/-- Number the deduplicated candidates consecutively starting at `n`. -/
def numberFrom : ℕ → List Candidate → List Citation
  | _, [] => []
  | n, c :: rest =>
      ⟨n, c.fragment_id, c.similarity_score, c.modality, c.excerpt,
        c.locator⟩ :: numberFrom (n + 1) rest

/-- Modelled from the spec: §4.5 `assemble(candidates)` of the missing
backend citation assembler — deduplicate by fragment id, then assign
`citation_number` 1..N in the candidates' final rank order. -/
def assemble (cs : List Candidate) : List Citation :=
  numberFrom 1 (dedupAux cs [])

/-- Modelled from the spec: §3 document processing status, one of
pending, processed, failed. -/
inductive DocStatus
  | pending
  | processed
  | failed
deriving DecidableEq, Repr

/-- Modelled from the spec: §7 ingestion outcome of the missing backend
pipeline — each element is one fragment's embedding result (`none` is an
`EmbeddingError`); any failed embedding marks the whole document `failed`,
never partially `processed`. -/
def ingestStatus (embedResults : List (Option (List ℚ))) : DocStatus :=
  if embedResults.any (fun r => r.isNone) then .failed else .processed

/-- JavaScript `String.prototype.trim` as used by both submit handlers:
strip leading and trailing whitespace characters. -/
def jsTrim (s : String) : String :=
  String.mk (((s.data.dropWhile Char.isWhitespace).reverse.dropWhile
    Char.isWhitespace).reverse)

/-- Search mode selected in `QueryInterface` (`'rag'`, `'search'`,
`'cross-modal'`). -/
inductive SearchMode
  | rag
  | searchM
  | crossModal
deriving DecidableEq, Repr

/-- An API request issued by a frontend submit handler (`services/api`:
`ragQuery`, `search`, `crossModalSearch`; `api`: `queryRAG`). -/
inductive ApiRequest
  | ragQuery (q : String)
  | searchQuery (q : String)
  | crossModalSearch (q : String)
  | queryRAG (question : String) (top_k : ℕ) (document_ids : Option (List ℕ))
deriving DecidableEq, Repr

/-- Observable outcome of one run of `QueryInterface.handleSubmit`:
the `setError` argument, the API request issued (if any), and whether
`onLoading` was toggled. -/
structure QISubmitResult where
  errorMsg : Option String
  request : Option ApiRequest
  loadingToggled : Bool
deriving DecidableEq, Repr

/-- `handleSubmit` of `QueryInterface` (src/unnamed/part_001): a query whose
trimmed form is empty sets the error message and returns before any API
call; otherwise the error is cleared, loading is toggled and the
mode-appropriate API function is called with the raw query. -/
def queryInterfaceSubmit (query : String) (mode : SearchMode) :
    QISubmitResult :=
  if jsTrim query = "" then
    { errorMsg := some "Please enter a query", request := none
      loadingToggled := false }
  else
    { errorMsg := none
      request := some (match mode with
        | .rag => .ragQuery query
        | .searchM => .searchQuery query
        | .crossModal => .crossModalSearch query)
      loadingToggled := true }

/-- `handleSubmit` of `SearchInterface`
(src/frontend/src/components/SearchInterface.jsx): returns without any
request when the trimmed query is empty; otherwise issues `queryRAG` with
`top_k = 5` and, when documents are selected, their ids. -/
def searchInterfaceSubmit (query : String) (selectedDocuments : List ℕ) :
    Option ApiRequest :=
  if jsTrim query = "" then none
  else
    some (.queryRAG query 5
      (if selectedDocuments.length > 0 then some selectedDocuments else none))

/-- A document row as rendered by `DocumentsList`. -/
structure DocRow where
  document_id : ℕ
  filename : String
deriving DecidableEq, Repr

/-- Outcome of the awaited `deleteDocument` API call. -/
inductive DeleteOutcome
  | resolved
  | rejected (msg : String)
deriving DecidableEq, Repr

/-- Component state and alert visible after `DocumentsList.handleDelete`
returns. -/
structure DeleteResult where
  documents : List DocRow
  deletingId : Option ℕ
  alertMsg : Option String
deriving DecidableEq, Repr

/-- `handleDelete` of `DocumentsList`
(src/frontend/src/components/DocumentsList.jsx): an unconfirmed dialog
returns untouched state; otherwise `deletingId` is set, the API call is
awaited, on success the document is filtered out of the list, on rejection
only an alert is shown, and the `finally` block resets `deletingId` to
null in either case. -/
def handleDelete (documents : List DocRow) (documentId : ℕ)
    (confirmed : Bool) (outcome : DeleteOutcome) : DeleteResult :=
  if !confirmed then
    { documents := documents, deletingId := none, alertMsg := none }
  else
    match outcome with
    | .resolved =>
        { documents := documents.filter (fun d => d.document_id != documentId)
          deletingId := none, alertMsg := none }
    | .rejected msg =>
        { documents := documents, deletingId := none
          alertMsg := some ("Failed to delete document: " ++ msg) }

theorem search_ok_eq {idx : VIndex} {q : List ℚ} {k : ℕ}
    {res : List (ℕ × ℚ)} (hq : q.length = idx.dim)
    (hres : idx.search q k = .ok res) :
    res = (List.insertionSort rankRel
      (idx.entries.map (fun e => (e.1, cosineSim q e.2)))).take k := by
  unfold VIndex.search at hres
  rw [if_pos hq] at hres
  exact (Except.ok.inj hres).symm

theorem pairwise_ne_fst_scored {idx : VIndex} (hnd : idx.keys.Nodup)
    (q : List ℚ) :
    (idx.entries.map (fun e => (e.1, cosineSim q e.2))).Pairwise
      (fun a b => a.1 ≠ b.1) := by
  have h1 : idx.entries.Pairwise (fun a b => a.1 ≠ b.1) := by
    rw [VIndex.keys] at hnd
    exact List.pairwise_map.mp hnd
  exact List.pairwise_map.mpr h1

/-- Claim C1: for every index state whose stored fragment ids are distinct,
every query vector of the configured dimension and every `k`, `search`
returns a sequence of (fragment id, similarity score) pairs of length at
most `k`, strictly descending by score with ties broken by ascending
fragment id. -/
theorem search_ranked_truncated (idx : VIndex) (q : List ℚ) (k : ℕ)
    (res : List (ℕ × ℚ)) (hnd : idx.keys.Nodup) (hq : q.length = idx.dim)
    (hres : idx.search q k = .ok res) :
    res.length ≤ k ∧
      res.Pairwise (fun a b => b.2 < a.2 ∨ (a.2 = b.2 ∧ a.1 < b.1)) := by
  have heq := search_ok_eq hq hres
  subst heq
  refine ⟨by simp, ?_⟩
  have hsorted : List.Sorted rankRel (List.insertionSort rankRel
      (idx.entries.map (fun e => (e.1, cosineSim q e.2)))) :=
    List.sorted_insertionSort rankRel _
  have hperm : List.Perm
      (List.insertionSort rankRel
        (idx.entries.map (fun e => (e.1, cosineSim q e.2))))
      (idx.entries.map (fun e => (e.1, cosineSim q e.2))) :=
    List.perm_insertionSort rankRel _
  have hne : (List.insertionSort rankRel
      (idx.entries.map (fun e => (e.1, cosineSim q e.2)))).Pairwise
      (fun a b => a.1 ≠ b.1) :=
    (hperm.pairwise_iff (fun h => h.symm)).mpr (pairwise_ne_fst_scored hnd q)
  have hrank := List.Pairwise.sublist (List.take_sublist k _) hsorted
  have hne' := List.Pairwise.sublist (List.take_sublist k _) hne
  refine List.Pairwise.imp₂ (fun a b hr hn => ?_) hrank hne'
  rcases hr with h | ⟨h1, h2⟩
  · exact Or.inl h
  · exact Or.inr ⟨h1, lt_of_le_of_ne h2 hn⟩

theorem upsertEntry_length {l : List (ℕ × List ℚ)} {fid : ℕ} (v : List ℚ)
    (h : fid ∈ l.map Prod.fst) :
    (upsertEntry l fid v).length = l.length := by
  induction l with
  | nil => simp at h
  | cons e rest ih =>
    by_cases he : e.1 = fid
    · simp [upsertEntry, he]
    · rw [List.map_cons, List.mem_cons] at h
      rcases h with h | h
      · exact absurd h.symm he
      · simp [upsertEntry, he, ih h]

theorem upsertEntry_keys {l : List (ℕ × List ℚ)} {fid : ℕ} (v : List ℚ)
    (h : fid ∈ l.map Prod.fst) :
    (upsertEntry l fid v).map Prod.fst = l.map Prod.fst := by
  induction l with
  | nil => simp at h
  | cons e rest ih =>
    by_cases he : e.1 = fid
    · simp [upsertEntry, he]
    · rw [List.map_cons, List.mem_cons] at h
      rcases h with h | h
      · exact absurd h.symm he
      · simp [upsertEntry, he, ih h]

theorem upsertEntry_find (l : List (ℕ × List ℚ)) (fid : ℕ) (v : List ℚ) :
    (upsertEntry l fid v).find? (fun e => e.1 == fid) = some (fid, v) := by
  induction l with
  | nil => simp [upsertEntry]
  | cons e rest ih =>
    by_cases he : e.1 = fid
    · simp [upsertEntry, he]
    · simp [upsertEntry, he, List.find?_cons, ih]

/-- Claim C8: re-inserting a vector under a fragment id already present
replaces the stored vector rather than adding a duplicate: the index keeps
the same size and the same keys, and the lookup returns the new vector. -/
theorem insert_idempotent_on_fid (idx : VIndex) (fid : ℕ) (v : List ℚ)
    (idx' : VIndex) (hmem : fid ∈ idx.keys)
    (hins : idx.insert fid v = .ok idx') :
    idx'.size = idx.size ∧ idx'.keys = idx.keys ∧
      idx'.lookup fid = some v := by
  unfold VIndex.insert at hins
  split at hins
  case isTrue hv =>
    have h' := Except.ok.inj hins
    subst h'
    refine ⟨?_, ?_, ?_⟩
    · exact upsertEntry_length v hmem
    · exact upsertEntry_keys v hmem
    · unfold VIndex.lookup
      rw [upsertEntry_find]
  case isFalse => cases hins

theorem mem_keys_remove {idx : VIndex} {f fid : ℕ} :
    fid ∈ (idx.remove f).keys ↔ fid ∈ idx.keys ∧ fid ≠ f := by
  simp only [VIndex.remove, VIndex.keys, List.mem_map, List.mem_filter,
    bne_iff_ne, ne_eq]
  constructor
  · rintro ⟨e, ⟨he, hne⟩, rfl⟩
    exact ⟨⟨e, he, rfl⟩, hne⟩
  · rintro ⟨⟨e, he, rfl⟩, hne⟩
    exact ⟨e, ⟨he, hne⟩, rfl⟩

theorem mem_keys_removeAll {fids : List ℕ} {idx : VIndex} {fid : ℕ} :
    fid ∈ (removeAll idx fids).keys ↔ fid ∈ idx.keys ∧ fid ∉ fids := by
  induction fids generalizing idx with
  | nil => simp [removeAll]
  | cons a as ih =>
    have hstep : removeAll idx (a :: as) = removeAll (idx.remove a) as := rfl
    rw [hstep, ih, mem_keys_remove]
    simp only [List.mem_cons]
    constructor
    · rintro ⟨⟨h1, h2⟩, h3⟩
      exact ⟨h1, fun hc => hc.elim h2 h3⟩
    · rintro ⟨h1, h2⟩
      exact ⟨⟨h1, fun hc => h2 (Or.inl hc)⟩, fun hc => h2 (Or.inr hc)⟩

theorem search_mem_keys {idx : VIndex} {q : List ℚ} {k : ℕ}
    {res : List (ℕ × ℚ)} (hres : idx.search q k = .ok res) {p : ℕ × ℚ}
    (hp : p ∈ res) : p.1 ∈ idx.keys := by
  unfold VIndex.search at hres
  split at hres
  case isTrue hq =>
    have h' := Except.ok.inj hres
    subst h'
    have hp1 : p ∈ List.insertionSort rankRel
        (idx.entries.map (fun e => (e.1, cosineSim q e.2))) :=
      (List.take_sublist k _).mem hp
    rw [List.mem_insertionSort] at hp1
    rw [List.mem_map] at hp1
    obtain ⟨e, he, rfl⟩ := hp1
    exact List.mem_map.mpr ⟨e, he, rfl⟩
  case isFalse => cases hres

theorem getFragment_deleteDocument {st : SystemState} {docId fid : ℕ}
    (hreg : (st.registry.map Fragment.fragment_id).Nodup)
    (hmem : fid ∈ st.docFragmentIds docId) :
    (st.deleteDocument docId).getFragment fid = none := by
  unfold SystemState.deleteDocument SystemState.getFragment
  simp only
  rw [List.find?_eq_none]
  intro g hg hbeq
  rw [List.mem_filter] at hg
  obtain ⟨hgreg, hgdoc⟩ := hg
  have hgf : g.fragment_id = fid := by simpa using hbeq
  obtain ⟨f, hf, hfid⟩ : ∃ f ∈ st.registry.filter
      (fun f => f.document_id == docId), f.fragment_id = fid := by
    unfold SystemState.docFragmentIds at hmem
    simpa using hmem
  rw [List.mem_filter] at hf
  have hfd : f.document_id = docId := by simpa using hf.2
  have hfg : f = g :=
    List.inj_on_of_nodup_map hreg hf.1 hgreg (hfid.trans hgf.symm)
  have hgd : g.document_id ≠ docId := by simpa using hgdoc
  rw [hfg] at hfd
  exact hgd hfd

/-- Claim C4: deleting a document removes all of its fragments from both the
registry and every vector index, atomically from the caller's perspective:
on success `get` returns nothing and `search` never returns any of the
document's fragment ids, and a failed cascade leaves the caller-visible
state unchanged (no partial removal). -/
theorem delete_document_cascade (st : SystemState) (docId : ℕ)
    (removeFails : ℕ → Bool) (st' : SystemState)
    (err : Option CascadeFailure)
    (hreg : (st.registry.map Fragment.fragment_id).Nodup)
    (h : st.tryDeleteDocument docId removeFails = (st', err)) :
    (err = none → ∀ fid ∈ st.docFragmentIds docId,
      st'.getFragment fid = none ∧
      ∀ m q k res, (st'.indexOf m).search q k = .ok res →
        ∀ p ∈ res, p.1 ≠ fid) ∧
    (∀ e, err = some e → st' = st) := by
  unfold SystemState.tryDeleteDocument at h
  split at h
  case isTrue hemp =>
    injection h with h1 h2
    subst h1
    subst h2
    constructor
    · intro _ fid hfid
      refine ⟨getFragment_deleteDocument hreg hfid, ?_⟩
      intro m q k res hres p hp hpfid
      have hkey : p.1 ∈ ((st.deleteDocument docId).indexOf m).keys :=
        search_mem_keys hres hp
      have hrem : ((st.deleteDocument docId).indexOf m) =
          removeAll (st.indexOf m) (st.docFragmentIds docId) := by
        cases m <;> rfl
      rw [hrem, mem_keys_removeAll] at hkey
      rw [hpfid] at hkey
      exact hkey.2 hfid
    · intro e he
      cases he
  case isFalse hemp =>
    injection h with h1 h2
    subst h1
    subst h2
    constructor
    · intro he
      cases he
    · intro e _
      rfl

theorem applyDocFilter_sublist (flt : Option (List ℕ))
    (cs : List Candidate) : (applyDocFilter flt cs).Sublist cs := by
  unfold applyDocFilter
  cases flt
  · exact List.Sublist.refl cs
  · exact List.filter_sublist cs

theorem fusedCandidates_sorted (st : SystemState)
    (embeds : Modality → Option (List ℚ)) (opts : QueryOptions) :
    (fusedCandidates st embeds opts).Pairwise scoreRel :=
  List.sorted_insertionSort scoreRel _

/-- Claim C3: `plan_query` with default options uses `top_k = 5`, and for
every state, embedding assignment and options the fused result it returns
has length at most `top_k` and is ranked purely by similarity score
descending across all requested modalities. -/
theorem plan_query_fused_ranking (st : SystemState)
    (embeds : Modality → Option (List ℚ)) (opts : QueryOptions) :
    defaultOptions.top_k = 5 ∧
    (st.planQuery embeds defaultOptions).length ≤ 5 ∧
    (st.planQuery embeds opts).length ≤ opts.top_k ∧
    (st.planQuery embeds opts).Pairwise
      (fun a b => b.similarity_score ≤ a.similarity_score) := by
  refine ⟨rfl, ?_, ?_, ?_⟩
  · unfold SystemState.planQuery
    simp [List.length_take, defaultOptions]
  · unfold SystemState.planQuery
    simp [List.length_take]
  · unfold SystemState.planQuery
    have hsub : ((applyDocFilter opts.document_filter
        (fusedCandidates st embeds opts)).take opts.top_k).Sublist
        (fusedCandidates st embeds opts) :=
      (List.take_sublist _ _).trans (applyDocFilter_sublist _ _)
    exact List.Pairwise.sublist hsub (fusedCandidates_sorted st embeds opts)

/-- Claim C5: with a document filter configured, `plan_query` applies the
filter to the already fused-and-ranked candidate list and only then
truncates to `top_k`; the surviving candidates keep exactly their relative
ranking from the unfiltered fused list (the filtered list is an
order-preserving sublist of the fused list, which itself does not depend
on the filter). -/
theorem document_filter_post_ranking (st : SystemState)
    (embeds : Modality → Option (List ℚ)) (opts : QueryOptions)
    (allowed : List ℕ) (hflt : opts.document_filter = some allowed) :
    st.planQuery embeds opts =
      ((fusedCandidates st embeds opts).filter
        (fun c => allowed.contains c.document_id)).take opts.top_k ∧
    ((fusedCandidates st embeds opts).filter
      (fun c => allowed.contains c.document_id)).Sublist
      (fusedCandidates st embeds opts) ∧
    fusedCandidates st embeds { opts with document_filter := none } =
      fusedCandidates st embeds opts := by
  refine ⟨?_, List.filter_sublist _, ?_⟩
  · unfold SystemState.planQuery
    rw [hflt]
    rfl
  · cases opts
    rfl

/-- Claim C6: when no requested modality has a usable embedding,
`plan_query` returns the empty sequence as a valid result rather than an
error. -/
theorem plan_query_empty_no_embedding (st : SystemState)
    (embeds : Modality → Option (List ℚ)) (opts : QueryOptions)
    (h : ∀ m ∈ opts.modalities, embeds m = none) :
    st.planQuery embeds opts = [] := by
  have hfl : (opts.modalities.map
      (fun m => st.modalityCandidates embeds m opts.top_k)).flatten = [] := by
    rw [List.flatten_eq_nil_iff]
    intro l hl
    rw [List.mem_map] at hl
    obtain ⟨m, hm, rfl⟩ := hl
    unfold SystemState.modalityCandidates
    rw [h m hm]
  unfold SystemState.planQuery fusedCandidates
  rw [hfl]
  cases hdf : opts.document_filter <;> simp [applyDocFilter]

theorem numberFrom_length (n : ℕ) (l : List Candidate) :
    (numberFrom n l).length = l.length := by
  induction l generalizing n with
  | nil => rfl
  | cons c rest ih => simp [numberFrom, ih]

theorem numberFrom_map_num (n : ℕ) (l : List Candidate) :
    (numberFrom n l).map (fun c => c.citation_number) =
      List.range' n l.length := by
  induction l generalizing n with
  | nil => rfl
  | cons c rest ih =>
    simp [numberFrom, List.range'_succ, ih]

theorem numberFrom_map_fid (n : ℕ) (l : List Candidate) :
    (numberFrom n l).map (fun c => c.fragment_id) =
      l.map (fun c => c.fragment_id) := by
  induction l generalizing n with
  | nil => rfl
  | cons c rest ih => simp [numberFrom, ih]

theorem dedupAux_sublist (cs : List Candidate) (seen : List ℕ) :
    (dedupAux cs seen).Sublist cs := by
  induction cs generalizing seen with
  | nil => simp [dedupAux]
  | cons c rest ih =>
    rw [dedupAux]
    split
    · exact (ih seen).cons c
    · exact (ih _).cons₂ c

/-- Claim C2: `assemble` is pure and deterministic — it assigns
`citation_number` 1..N along the candidates' final rank order (the
citations' fragment ids are an order-preserving subsequence of the input
candidates' fragment ids), and two runs on the identical candidate
ordering yield identical assignments. -/
theorem assemble_stable_numbering (cs : List Candidate) :
    (assemble cs).map (fun c => c.citation_number) =
      List.range' 1 (assemble cs).length ∧
    ((assemble cs).map (fun c => c.fragment_id)).Sublist
      (cs.map (fun c => c.fragment_id)) ∧
    assemble cs = assemble cs := by
  refine ⟨?_, ?_, rfl⟩
  · unfold assemble
    rw [numberFrom_map_num, numberFrom_length]
  · unfold assemble
    rw [numberFrom_map_fid]
    exact (dedupAux_sublist cs []).map _

/-- Claim C7: a document's processing status is one of exactly pending,
processed and failed, and any failed embedding during ingestion marks the
document failed, never partially processed. -/
theorem doc_status_exhaustive_failed (s : DocStatus)
    (rs : List (Option (List ℚ))) (h : ∃ r ∈ rs, r = none) :
    (s = .pending ∨ s = .processed ∨ s = .failed) ∧
      ingestStatus rs = .failed := by
  constructor
  · cases s
    · exact Or.inl rfl
    · exact Or.inr (Or.inl rfl)
    · exact Or.inr (Or.inr rfl)
  · have hany : rs.any (fun r => r.isNone) = true := by
      rw [List.any_eq_true]
      obtain ⟨r, hr, hrn⟩ := h
      exact ⟨r, hr, by rw [hrn]; rfl⟩
    simp [ingestStatus, hany]

/-- Claim C9: a query whose trimmed form is empty never reaches the
backend: `QueryInterface.handleSubmit` records the error message and
issues no API request (and never toggles loading), and
`SearchInterface.handleSubmit` returns without issuing any request. -/
theorem whitespace_query_no_request (query : String) (mode : SearchMode)
    (docs : List ℕ) (h : jsTrim query = "") :
    (queryInterfaceSubmit query mode).request = none ∧
    (queryInterfaceSubmit query mode).errorMsg =
      some "Please enter a query" ∧
    (queryInterfaceSubmit query mode).loadingToggled = false ∧
    searchInterfaceSubmit query docs = none := by
  unfold queryInterfaceSubmit searchInterfaceSubmit
  rw [if_pos h, if_pos h]
  exact ⟨rfl, rfl, rfl, rfl⟩

/-- Claim C10: in `DocumentsList.handleDelete` the documents list is
updated only when the delete API call resolves: on rejection the list is
unchanged and only an alert is shown, on success the document is filtered
out, and in both outcomes `deletingId` ends up null. -/
theorem handle_delete_outcomes (docs : List DocRow) (documentId : ℕ)
    (msg : String) :
    (handleDelete docs documentId true (.rejected msg)).documents = docs ∧
    (handleDelete docs documentId true (.rejected msg)).alertMsg =
      some ("Failed to delete document: " ++ msg) ∧
    (handleDelete docs documentId true (.rejected msg)).deletingId = none ∧
    (handleDelete docs documentId true .resolved).deletingId = none ∧
    (handleDelete docs documentId true .resolved).documents =
      docs.filter (fun d => d.document_id != documentId) :=
  ⟨rfl, rfl, rfl, rfl, rfl⟩

/-- Witness for the search contract at a concrete two-entry index. -/
theorem search_ranked_truncated_witness :
    (VIndex.mk 2 [(1, [1, 0]), (2, [0, 1])]).keys.Nodup ∧
    ([(1 : ℚ), 0].length = (VIndex.mk 2 [(1, [1, 0]), (2, [0, 1])]).dim) ∧
    ([((1 : ℕ), (1 : ℚ)), (2, 0)].length ≤ 2 ∧
      ([((1 : ℕ), (1 : ℚ)), (2, 0)]).Pairwise
        (fun a b => b.2 < a.2 ∨ (a.2 = b.2 ∧ a.1 < b.1))) :=
  ⟨by decide, by decide,
    search_ranked_truncated (VIndex.mk 2 [(1, [1, 0]), (2, [0, 1])])
      [1, 0] 2 [(1, 1), (2, 0)] (by decide) (by decide)
      (by norm_num [VIndex.search, cosineSim, dotQ, List.insertionSort,
        List.orderedInsert, rankRel])⟩

/-- Witness for idempotent insert: re-inserting fragment 1 replaces its
vector and keeps the index size. -/
theorem insert_idempotent_on_fid_witness :
    1 ∈ (VIndex.mk 2 [(1, [1, 0])]).keys ∧
    ((VIndex.mk 2 [(1, [0, 1])]).size = (VIndex.mk 2 [(1, [1, 0])]).size ∧
      (VIndex.mk 2 [(1, [0, 1])]).keys = (VIndex.mk 2 [(1, [1, 0])]).keys ∧
      (VIndex.mk 2 [(1, [0, 1])]).lookup 1 = some [0, 1]) :=
  ⟨by decide,
    insert_idempotent_on_fid (VIndex.mk 2 [(1, [1, 0])]) 1 [0, 1]
      (VIndex.mk 2 [(1, [0, 1])]) (by decide) rfl⟩

/-- Witness for the delete cascade on a one-fragment document. -/
theorem delete_document_cascade_witness :
    ((SystemState.mk [⟨1, 10, .text, [1, 0], some 3, "Revenue grew"⟩]
        ⟨2, [(1, [1, 0])]⟩ ⟨2, []⟩ ⟨2, []⟩).registry.map
        Fragment.fragment_id).Nodup ∧
    (((none : Option CascadeFailure) = none →
      ∀ fid ∈ (SystemState.mk [⟨1, 10, .text, [1, 0], some 3, "Revenue grew"⟩]
          ⟨2, [(1, [1, 0])]⟩ ⟨2, []⟩ ⟨2, []⟩).docFragmentIds 10,
        (SystemState.mk [] ⟨2, []⟩ ⟨2, []⟩ ⟨2, []⟩).getFragment fid = none ∧
        ∀ m q k res,
          ((SystemState.mk [] ⟨2, []⟩ ⟨2, []⟩ ⟨2, []⟩).indexOf m).search q k =
            .ok res → ∀ p ∈ res, p.1 ≠ fid) ∧
    (∀ e, (none : Option CascadeFailure) = some e →
      SystemState.mk [] ⟨2, []⟩ ⟨2, []⟩ ⟨2, []⟩ =
        SystemState.mk [⟨1, 10, .text, [1, 0], some 3, "Revenue grew"⟩]
          ⟨2, [(1, [1, 0])]⟩ ⟨2, []⟩ ⟨2, []⟩)) :=
  ⟨by decide,
    delete_document_cascade
      (SystemState.mk [⟨1, 10, .text, [1, 0], some 3, "Revenue grew"⟩]
        ⟨2, [(1, [1, 0])]⟩ ⟨2, []⟩ ⟨2, []⟩) 10 (fun _ => false)
      (SystemState.mk [] ⟨2, []⟩ ⟨2, []⟩ ⟨2, []⟩) none (by decide) rfl⟩

/-- Witness for the post-filter contract at a concrete filtered query. -/
theorem document_filter_post_ranking_witness :
    (QueryOptions.mk 2 [.text] (some [10])).document_filter = some [10] ∧
    ((SystemState.mk [⟨1, 10, .text, [1, 0], some 3, "Revenue grew"⟩]
        ⟨2, [(1, [1, 0])]⟩ ⟨2, []⟩ ⟨2, []⟩).planQuery
        (fun m => match m with
          | Modality.text => some [(1 : ℚ), 0]
          | _ => none)
        (QueryOptions.mk 2 [.text] (some [10])) =
      ((fusedCandidates
          (SystemState.mk [⟨1, 10, .text, [1, 0], some 3, "Revenue grew"⟩]
            ⟨2, [(1, [1, 0])]⟩ ⟨2, []⟩ ⟨2, []⟩)
          (fun m => match m with
            | Modality.text => some [(1 : ℚ), 0]
            | _ => none)
          (QueryOptions.mk 2 [.text] (some [10]))).filter
          (fun c => [10].contains c.document_id)).take
        (QueryOptions.mk 2 [.text] (some [10])).top_k ∧
      ((fusedCandidates
          (SystemState.mk [⟨1, 10, .text, [1, 0], some 3, "Revenue grew"⟩]
            ⟨2, [(1, [1, 0])]⟩ ⟨2, []⟩ ⟨2, []⟩)
          (fun m => match m with
            | Modality.text => some [(1 : ℚ), 0]
            | _ => none)
          (QueryOptions.mk 2 [.text] (some [10]))).filter
          (fun c => [10].contains c.document_id)).Sublist
        (fusedCandidates
          (SystemState.mk [⟨1, 10, .text, [1, 0], some 3, "Revenue grew"⟩]
            ⟨2, [(1, [1, 0])]⟩ ⟨2, []⟩ ⟨2, []⟩)
          (fun m => match m with
            | Modality.text => some [(1 : ℚ), 0]
            | _ => none)
          (QueryOptions.mk 2 [.text] (some [10]))) ∧
      fusedCandidates
          (SystemState.mk [⟨1, 10, .text, [1, 0], some 3, "Revenue grew"⟩]
            ⟨2, [(1, [1, 0])]⟩ ⟨2, []⟩ ⟨2, []⟩)
          (fun m => match m with
            | Modality.text => some [(1 : ℚ), 0]
            | _ => none)
          { QueryOptions.mk 2 [.text] (some [10]) with
            document_filter := none } =
        fusedCandidates
          (SystemState.mk [⟨1, 10, .text, [1, 0], some 3, "Revenue grew"⟩]
            ⟨2, [(1, [1, 0])]⟩ ⟨2, []⟩ ⟨2, []⟩)
          (fun m => match m with
            | Modality.text => some [(1 : ℚ), 0]
            | _ => none)
          (QueryOptions.mk 2 [.text] (some [10]))) :=
  ⟨rfl,
    document_filter_post_ranking
      (SystemState.mk [⟨1, 10, .text, [1, 0], some 3, "Revenue grew"⟩]
        ⟨2, [(1, [1, 0])]⟩ ⟨2, []⟩ ⟨2, []⟩)
      (fun m => match m with
        | Modality.text => some [(1 : ℚ), 0]
        | _ => none)
      (QueryOptions.mk 2 [.text] (some [10])) [10] rfl⟩

/-- Witness for the empty-result contract when no modality has an
embedding. -/
theorem plan_query_empty_no_embedding_witness :
    (∀ m ∈ defaultOptions.modalities,
      (fun _ : Modality => (none : Option (List ℚ))) m = none) ∧
    (SystemState.mk [⟨1, 10, .text, [1, 0], some 3, "Revenue grew"⟩]
        ⟨2, [(1, [1, 0])]⟩ ⟨2, []⟩ ⟨2, []⟩).planQuery
      (fun _ => none) defaultOptions = [] :=
  ⟨fun _ _ => rfl,
    plan_query_empty_no_embedding
      (SystemState.mk [⟨1, 10, .text, [1, 0], some 3, "Revenue grew"⟩]
        ⟨2, [(1, [1, 0])]⟩ ⟨2, []⟩ ⟨2, []⟩)
      (fun _ => none) defaultOptions (fun _ _ => rfl)⟩

/-- Witness for the document-status contract at one failed embedding. -/
theorem doc_status_exhaustive_failed_witness :
    (∃ r ∈ ([none] : List (Option (List ℚ))), r = none) ∧
    ((DocStatus.pending = .pending ∨ DocStatus.pending = .processed ∨
        DocStatus.pending = .failed) ∧
      ingestStatus [none] = .failed) :=
  ⟨⟨none, by simp⟩,
    doc_status_exhaustive_failed .pending [none] ⟨none, by simp⟩⟩

/-- Witness for the whitespace-query guard at a two-space query. -/
theorem whitespace_query_no_request_witness :
    jsTrim "  " = "" ∧
    ((queryInterfaceSubmit "  " .rag).request = none ∧
      (queryInterfaceSubmit "  " .rag).errorMsg =
        some "Please enter a query" ∧
      (queryInterfaceSubmit "  " .rag).loadingToggled = false ∧
      searchInterfaceSubmit "  " [] = none) :=
  ⟨by decide, whitespace_query_no_request "  " .rag [] (by decide)⟩
